import Mathlib

/-!
Shallow embedding of the watssabi conversational-intake core:
`src/services/conversation_service.py` (`ConversationService.process_message`,
`ConversationService._handle_conversation_completion`),
`src/services/session_manager.py` (`SessionManager`),
`src/services/ai_client.py` (`AIClient.get_ai_response`),
`src/crud/repository.py` (`DataRepository`), and
`src/api/endpoints/twilio_webhook.py` (`handle_twilio_webhook`).

External collaborators are modelled explicitly: the Redis session store as an
association list, the relational store as lists of records, the OpenAI backend
as an oracle giving either an API error or the raw message content, and the
two database commit points as boolean failure flags.
-/

namespace Watssabi

/-- Values produced by Python `json.loads`: strings, numbers, booleans, null,
arrays and objects (objects as association lists in source order). Numbers are
restricted to integers, which covers every payload this service exchanges. -/
inductive Json where
  | str : String → Json
  | num : Int → Json
  | bool : Bool → Json
  | null : Json
  | arr : List Json → Json
  | obj : List (String × Json) → Json
deriving Repr

/-- Whitespace skipped by the JSON grammar. -/
def skipWs (cs : List Char) : List Char :=
  cs.dropWhile (fun c => c = ' ' || c = '\t' || c = '\n' || c = '\r')

/-- Body of a JSON string literal, after the opening quote: returns the decoded
string and the remaining input past the closing quote. Handles the simple
escape sequences; `\\uXXXX` escapes are not needed by any payload here. -/
def parseStringBody : List Char → Option (String × List Char)
  | [] => none
  | '"' :: rest => some ("", rest)
  | '\\' :: c :: rest =>
    match (match c with
           | '"' => some '"'
           | '\\' => some '\\'
           | '/' => some '/'
           | 'n' => some '\n'
           | 't' => some '\t'
           | 'r' => some '\r'
           | _ => none) with
    | none => none
    | some esc =>
      match parseStringBody rest with
      | none => none
      | some (s, rest1) => some (String.mk (esc :: s.data), rest1)
  | c :: rest =>
    match parseStringBody rest with
    | none => none
    | some (s, rest1) => some (String.mk (c :: s.data), rest1)

/-- Numeric value of a run of decimal digits. -/
def digitsToNat (ds : List Char) : Nat :=
  ds.foldl (fun n c => 10 * n + (c.toNat - 48)) 0

/-- Integer literal: optional minus sign followed by one or more digits. -/
def parseNumber (cs : List Char) : Option (Int × List Char) :=
  match cs with
  | '-' :: rest =>
    let ds := rest.takeWhile Char.isDigit
    if ds.isEmpty then none
    else some (-(digitsToNat ds : Int), rest.dropWhile Char.isDigit)
  | _ =>
    let ds := cs.takeWhile Char.isDigit
    if ds.isEmpty then none
    else some ((digitsToNat ds : Int), cs.dropWhile Char.isDigit)

/-- Check that the input starts with the given keyword. -/
def parseKeyword (kw : List Char) (cs : List Char) : Option (List Char) :=
  if cs.take kw.length = kw then some (cs.drop kw.length) else none

mutual

/-- Recursive-descent parser for one JSON value; `fuel` bounds the recursion
depth (any bound above the input length suffices). -/
def parseVal : Nat → List Char → Option (Json × List Char)
  | 0, _ => none
  | fuel + 1, cs =>
    match skipWs cs with
    | '"' :: rest =>
      match parseStringBody rest with
      | some (s, rest1) => some (Json.str s, rest1)
      | none => none
    | '{' :: rest =>
      match skipWs rest with
      | '}' :: rest1 => some (Json.obj [], rest1)
      | rest1 =>
        match parseMembers fuel rest1 with
        | some (kvs, rest2) =>
          match skipWs rest2 with
          | '}' :: rest3 => some (Json.obj kvs, rest3)
          | _ => none
        | none => none
    | '[' :: rest =>
      match skipWs rest with
      | ']' :: rest1 => some (Json.arr [], rest1)
      | rest1 =>
        match parseItems fuel rest1 with
        | some (items, rest2) =>
          match skipWs rest2 with
          | ']' :: rest3 => some (Json.arr items, rest3)
          | _ => none
        | none => none
    | 't' :: rest =>
      match parseKeyword ['r', 'u', 'e'] rest with
      | some rest1 => some (Json.bool true, rest1)
      | none => none
    | 'f' :: rest =>
      match parseKeyword ['a', 'l', 's', 'e'] rest with
      | some rest1 => some (Json.bool false, rest1)
      | none => none
    | 'n' :: rest =>
      match parseKeyword ['u', 'l', 'l'] rest with
      | some rest1 => some (Json.null, rest1)
      | none => none
    | cs1 =>
      match parseNumber cs1 with
      | some (n, rest1) => some (Json.num n, rest1)
      | none => none

/-- One or more `"key": value` members separated by commas. -/
def parseMembers : Nat → List Char → Option (List (String × Json) × List Char)
  | 0, _ => none
  | fuel + 1, cs =>
    match skipWs cs with
    | '"' :: rest =>
      match parseStringBody rest with
      | some (key, rest1) =>
        match skipWs rest1 with
        | ':' :: rest2 =>
          match parseVal fuel rest2 with
          | some (v, rest3) =>
            match skipWs rest3 with
            | ',' :: rest4 =>
              match parseMembers fuel rest4 with
              | some (kvs, rest5) => some ((key, v) :: kvs, rest5)
              | none => none
            | rest4 => some ([(key, v)], rest4)
          | none => none
        | _ => none
      | none => none
    | _ => none

/-- One or more array items separated by commas. -/
def parseItems : Nat → List Char → Option (List Json × List Char)
  | 0, _ => none
  | fuel + 1, cs =>
    match parseVal fuel cs with
    | some (v, rest) =>
      match skipWs rest with
      | ',' :: rest1 =>
        match parseItems fuel rest1 with
        | some (items, rest2) => some (v :: items, rest2)
        | none => none
      | rest1 => some ([v], rest1)
    | none => none

end

/-- Model of Python `json.loads`: the whole input (up to surrounding
whitespace) must be a single JSON value, otherwise the parse fails
(`json.JSONDecodeError`). -/
def parseJson (s : String) : Option Json :=
  match parseVal (s.length + 1) s.data with
  | some (j, rest) => if skipWs rest = [] then some j else none
  | none => none

/-- Escaping of quote and backslash inside a serialized JSON string. -/
def escapeChars : List Char → String
  | [] => ""
  | c :: cs =>
    (if c = '"' || c = '\\' then String.mk ['\\', c] else String.mk [c]) ++ escapeChars cs

mutual

/-- Model of Python `json.dumps` with its default separators. -/
def dumps : Json → String
  | .str s => "\"" ++ escapeChars s.data ++ "\""
  | .num n => toString n
  | .bool true => "true"
  | .bool false => "false"
  | .null => "null"
  | .arr xs => "[" ++ dumpsItems xs ++ "]"
  | .obj kvs => "\x7b" ++ dumpsMembers kvs ++ "\x7d"

/-- Array items joined by `", "`. -/
def dumpsItems : List Json → String
  | [] => ""
  | [x] => dumps x
  | x :: xs => dumps x ++ ", " ++ dumpsItems xs

/-- Object members joined by `", "`, keys separated from values by `": "`. -/
def dumpsMembers : List (String × Json) → String
  | [] => ""
  | [(k, v)] => "\"" ++ escapeChars k.data ++ "\": " ++ dumps v
  | (k, v) :: kvs =>
    "\"" ++ escapeChars k.data ++ "\": " ++ dumps v ++ ", " ++ dumpsMembers kvs

end

/-- Python truthiness on JSON values, as used by `if data_to_save:`. -/
def pyTruthy : Json → Bool
  | .null => false
  | .bool b => b
  | .num n => n != 0
  | .str s => s != ""
  | .arr xs => !xs.isEmpty
  | .obj kvs => !kvs.isEmpty

/-- Lookup of a key in an object's member list (Python dict access). -/
def lookupKey : List (String × Json) → String → Option Json
  | [], _ => none
  | (k, v) :: rest, key => if k = key then some v else lookupKey rest key

/-- Exceptions that can escape the orchestrator: `AttributeError` from calling
`.get` on a non-dict parse result, and database errors raised at a commit. -/
inductive PyErr where
  | attributeError
  | dbError
deriving Repr, DecidableEq

/-- Python `dict.get(key, default)`: raises `AttributeError` when the receiver
is not a dict (`json.loads` can return strings, numbers, arrays...). -/
def pyGet (j : Json) (key : String) (default : Json) : Except PyErr Json :=
  match j with
  | .obj kvs => .ok ((lookupKey kvs key).getD default)
  | _ => .error .attributeError

/-- One chat message, as the dicts `{"role": ..., "content": ...}` exchanged
between the orchestrator, the session store and the completion client. -/
structure Msg where
  role : String
  content : String
deriving Repr, DecidableEq

/-- One Redis value for a session key: the serialized history together with
the expiry (`ex=`) it was written with. -/
structure SessionEntry where
  history : List Msg
  ttl : Nat
deriving Repr, DecidableEq

/-- The Redis session store, modelled as an association list from keys to
entries (transport behaving normally; `RedisError` branches only log). -/
abbrev SessionStore := List (String × SessionEntry)

/-- Lookup of a key in the session store. -/
def lookupEntry : SessionStore → String → Option SessionEntry
  | [], _ => none
  | (k, v) :: rest, key => if k = key then some v else lookupEntry rest key

/-- Removal of every binding of a key from the session store. -/
def eraseEntry : SessionStore → String → SessionStore
  | [], _ => []
  | (k, v) :: rest, key =>
    if k = key then eraseEntry rest key else (k, v) :: eraseEntry rest key

/-- Fixed session timeout from `SessionManager.__init__` (one hour). -/
def session_ttl : Nat := 3600

/-- The Redis key for a user's session (`SessionManager._get_session_key`). -/
def sessionKey (userId : String) : String := "session:" ++ userId

/-- Model of `SessionManager.get_session`: the stored history, or `none` when
the key is absent. -/
def get_session (store : SessionStore) (userId : String) : Option (List Msg) :=
  (lookupEntry store (sessionKey userId)).map SessionEntry.history

/-- Model of `SessionManager.set_session`: binds the key to the serialized
history with the fixed one-hour expiry, replacing any previous binding. -/
def set_session (store : SessionStore) (userId : String) (history : List Msg) :
    SessionStore :=
  (sessionKey userId, ⟨history, session_ttl⟩) :: eraseEntry store (sessionKey userId)

/-- Model of `SessionManager.delete_session`. -/
def delete_session (store : SessionStore) (userId : String) : SessionStore :=
  eraseEntry store (sessionKey userId)

/-- Durable `users` row (`src/db/models.py`): primary key and WhatsApp id. -/
structure UserRec where
  userId : Nat
  whatsappId : String
deriving Repr, DecidableEq

/-- Durable `conversations` row: primary key, owning user, status and the
frozen conversation history. -/
structure ConvRec where
  conversationId : Nat
  userId : Nat
  status : String
  conversationHistory : List Msg
deriving Repr, DecidableEq

/-- Durable `collected_data` row: owning user and conversation plus the JSON
payload. -/
structure DataRec where
  userId : Nat
  conversationId : Nat
  data : Json
deriving Repr

/-- The relational store: committed rows of the three tables, plus a counter
supplying fresh primary keys. -/
structure DB where
  users : List UserRec
  conversations : List ConvRec
  collectedData : List DataRec
  nextId : Nat
deriving Repr

/-- The empty database. -/
def emptyDB : DB := ⟨[], [], [], 0⟩

/-- Durable-write events of the Complete branch's persistence sequence, in
the order the rows come into existence. -/
inductive Event where
  | ensureUser
  | createConversation
  | createCollectedData
deriving Repr, DecidableEq

/-- Step 1a of `_handle_conversation_completion`: `select` the user by
WhatsApp id, creating one if absent (`User(whatsapp_id=user_id)`). -/
def ensureUser (db : DB) (whatsappId : String) : DB × Nat :=
  match db.users.find? (fun u => u.whatsappId == whatsappId) with
  | some u => (db, u.userId)
  | none =>
    ({ db with users := db.users ++ [⟨db.nextId, whatsappId⟩],
               nextId := db.nextId + 1 }, db.nextId)

/-- Step 1b: `Conversation(user=user, status=..., conversation_history=...)`
added and committed. -/
def addConversation (db : DB) (userId : Nat) (status : String)
    (history : List Msg) : DB × Nat :=
  ({ db with conversations := db.conversations ++ [⟨db.nextId, userId, status, history⟩],
             nextId := db.nextId + 1 }, db.nextId)

/-- Model of `DataRepository.create_collected_data`: adds and commits one
`collected_data` row. -/
def create_collected_data (db : DB) (userId conversationId : Nat) (data : Json) :
    DB :=
  { db with collectedData := db.collectedData ++ [⟨userId, conversationId, data⟩] }

/-- Whitespace test for Python `str.strip`. -/
def isSpace (c : Char) : Bool := c = ' ' || c = '\t' || c = '\n' || c = '\r'

/-- Model of Python `str.strip()`: removes leading and trailing whitespace. -/
def strip (s : String) : String :=
  String.mk (((s.data.dropWhile isSpace).reverse.dropWhile isSpace).reverse)

/-- The OpenAI backend as seen through one `chat.completions.create` call:
either the call raises (`APIError`/`IndexError`/`AttributeError`), or it
yields `response.choices[0].message.content` (which may be `None`). -/
structure AIBackend where
  apiError : Bool
  content : Option String
deriving Repr, DecidableEq

/-- Model of `AIClient.get_ai_response`: `None` on a raised error; otherwise
`ai_response.strip() if ai_response else None` — a `None` or empty content
maps to `None`, anything else is stripped of surrounding whitespace. -/
def get_ai_response (backend : AIBackend) : Option String :=
  if backend.apiError then none
  else
    match backend.content with
    | none => none
    | some s => if s = "" then none else some (strip s)

/-- Failure model for one turn: the completion backend's behavior, and
whether each of the two database transactions raises at its commit. -/
structure TurnConfig where
  backend : AIBackend
  commitFails : Bool
  dataCommitFails : Bool
deriving Repr, DecidableEq

/-- Which branch of the `try`/`except json.JSONDecodeError` ran, as recorded
by the `conversation_completed` / `conversation_ongoing` log lines. -/
inductive Classification where
  | complete
  | ongoing
deriving Repr, DecidableEq

/-- Fallback final reply from `_handle_conversation_completion` when the
parsed object has no usable `reply` field. -/
def fallbackThanks : String := "Thank you! Your information has been saved."

/-- Result of `_handle_conversation_completion`: the returned reply or the
raised exception, the database as left behind (commits are durable even when
a later step raises), and the durable-write events in order. -/
structure CompletionResult where
  outcome : Except PyErr String
  db : DB
  events : List Event
deriving Repr

/-- Reply extraction at the end of `_handle_conversation_completion`:
`final_data.get("reply")`, replaced by the fixed thank-you string when it is
not a string or is blank after stripping. -/
def finishReply (finalData : Json) (db : DB) (events : List Event) :
    CompletionResult :=
  match pyGet finalData "reply" Json.null with
  | .error e => ⟨.error e, db, events⟩
  | .ok replyJson =>
    match replyJson with
    | .str s => ⟨.ok (if strip s = "" then fallbackThanks else s), db, events⟩
    | _ => ⟨.ok fallbackThanks, db, events⟩

/-- Model of `ConversationService._handle_conversation_completion`: appends
the serialized completion object to the history, commits the user and
conversation in one transaction, then in a second transaction creates the
collected-data row when `final_data.get("data", {})` is truthy, and extracts
the final reply (`final_data.get("reply")`, with a fixed fallback when that
is missing, empty or not a string). A non-dict `final_data` raises
`AttributeError` at the first `.get` — after the first transaction has
already committed. -/
def handleConversationCompletion (cfg : TurnConfig) (db : DB) (userId : String)
    (history : List Msg) (finalData : Json) : CompletionResult :=
  let history := history ++ [⟨"assistant", dumps finalData⟩]
  if cfg.commitFails then ⟨.error .dbError, db, []⟩
  else
    let r1 := ensureUser db userId
    let r2 := addConversation r1.1 r1.2 "completed" history
    match pyGet finalData "data" (Json.obj []) with
    | .error e => ⟨.error e, r2.1, [.ensureUser, .createConversation]⟩
    | .ok dataToSave =>
      if pyTruthy dataToSave then
        if cfg.dataCommitFails then
          ⟨.error .dbError, r2.1, [.ensureUser, .createConversation]⟩
        else
          finishReply finalData (create_collected_data r2.1 r1.2 r2.2 dataToSave)
            [.ensureUser, .createConversation, .createCollectedData]
      else
        finishReply finalData r2.1 [.ensureUser, .createConversation]

/-- Result of one `process_message` turn: the returned reply (or the raised
exception), the session store and database afterwards, the durable-write
events, and which branch of the classification ran (`none` when the AI gave
no response and the turn stopped early). -/
structure TurnResult where
  outcome : Except PyErr (Option String)
  store : SessionStore
  db : DB
  events : List Event
  branch : Option Classification
deriving Repr

/-- The in-memory working history at generation time: the stored history (an
absent session read as empty) with the new user message appended — exactly
what `process_message` passes to the completion client. -/
def workingHistory (store : SessionStore) (userId message : String) : List Msg :=
  ((get_session store userId).getD []) ++ [⟨"user", message⟩]

/-- Model of `ConversationService.process_message`: load the session, append
the user message, call the completion client; stop (returning `None`, with no
store mutation) when it yields nothing; otherwise classify by `json.loads` —
parse success runs the completion/persistence path and then deletes the
session, parse failure (`json.JSONDecodeError`) appends the assistant turn
and writes the history back. An exception from the persistence path
propagates; the session is left untouched in that case. -/
def process_message (cfg : TurnConfig) (store : SessionStore) (db : DB)
    (userId message : String) : TurnResult :=
  match get_ai_response cfg.backend with
  | none => ⟨.ok none, store, db, [], none⟩
  | some aiResponse =>
    if aiResponse = "" then ⟨.ok none, store, db, [], none⟩
    else
      match parseJson aiResponse with
      | some finalData =>
        let r := handleConversationCompletion cfg db userId
          (workingHistory store userId message) finalData
        match r.outcome with
        | .error e => ⟨.error e, store, r.db, r.events, some .complete⟩
        | .ok finalReply =>
          ⟨.ok (some finalReply), delete_session store userId, r.db, r.events,
           some .complete⟩
      | none =>
        ⟨.ok (some aiResponse),
         set_session store userId
           (workingHistory store userId message ++ [⟨"assistant", aiResponse⟩]),
         db, [], some .ongoing⟩

/-- Fallback reply of the Twilio boundary when the orchestrator returns no
text. -/
def fallbackMessage : String := "Sorry, I encountered a problem. Please try again later."

/-- Result of the webhook boundary: the message put in the TwiML reply, or
the exception that escaped (FastAPI then answers with an error status and no
TwiML body). -/
structure WebhookResult where
  outcome : Except PyErr String
  store : SessionStore
  db : DB
deriving Repr

/-- Model of `handle_twilio_webhook` after validation: call
`process_message`; a raised exception propagates (there is no `try` around
the call), a falsy reply (`None` or empty) is replaced by the fixed fallback
message, and any other reply is sent as-is. -/
def handle_twilio_webhook (cfg : TurnConfig) (store : SessionStore) (db : DB)
    (fromNumber body : String) : WebhookResult :=
  match process_message cfg store db fromNumber body with
  | ⟨.error e, store1, db1, _, _⟩ => ⟨.error e, store1, db1⟩
  | ⟨.ok none, store1, db1, _, _⟩ => ⟨.ok fallbackMessage, store1, db1⟩
  | ⟨.ok (some s), store1, db1, _, _⟩ =>
    if s = "" then ⟨.ok fallbackMessage, store1, db1⟩
    else ⟨.ok s, store1, db1⟩

/-- Session stores reachable from the initial empty store by complete turns,
under any backend behavior, database state and inbound message. -/
inductive Reachable : SessionStore → Prop where
  | init : Reachable []
  | step (cfg : TurnConfig) (db : DB) (userId message : String) {store : SessionStore} :
      Reachable store → Reachable (process_message cfg store db userId message).store

/-- Working histories whose trailing run of user-authored messages has a
given length: the count of unresponded user messages at the end. -/
def trailingUserCount (h : List Msg) : Nat :=
  (h.reverse.takeWhile (fun m => m.role == "user")).length

/-- A history that is empty or whose last message is assistant-authored. -/
def endsWithAssistant (h : List Msg) : Prop :=
  ∀ m, h.reverse.head? = some m → m.role = "assistant"

/-- Invariant over the session store: every stored history is empty or ends
with an assistant message. -/
def StoreInv (store : SessionStore) : Prop :=
  ∀ k e, lookupEntry store k = some e → endsWithAssistant e.history

theorem lookupEntry_eraseEntry_self (store : SessionStore) (key : String) :
    lookupEntry (eraseEntry store key) key = none := by
  induction store with
  | nil => rfl
  | cons kv rest ih =>
    obtain ⟨k, v⟩ := kv
    by_cases h : k = key
    · simpa [eraseEntry, h] using ih
    · simpa [eraseEntry, lookupEntry, h] using ih

theorem lookupEntry_eraseEntry_some {store : SessionStore} {key k : String}
    {e : SessionEntry} (h : lookupEntry (eraseEntry store key) k = some e) :
    lookupEntry store k = some e := by
  induction store with
  | nil => exact h
  | cons kv rest ih =>
    obtain ⟨k', v⟩ := kv
    by_cases hk : k' = key
    · simp only [eraseEntry, if_pos hk] at h
      have : k ≠ k' := by
        rintro rfl
        rw [hk] at h
        rw [lookupEntry_eraseEntry_self] at h
        exact Option.noConfusion h
      simpa [lookupEntry, Ne.symm this] using ih h
    · simp only [eraseEntry, if_neg hk] at h
      by_cases hk2 : k' = k
      · simpa [lookupEntry, hk2] using h
      · simp only [lookupEntry, if_neg hk2] at h ⊢
        exact ih h

theorem get_session_delete_session_self (store : SessionStore) (userId : String) :
    get_session (delete_session store userId) userId = none := by
  simp [get_session, delete_session, lookupEntry_eraseEntry_self]

/-- C7: when the completion client fails and yields no text, `process_message`
returns `None` and leaves both the session store and the database exactly as
they were — no save, no delete, no durable row, no write event. -/
theorem ai_failure_mutates_no_store (cfg : TurnConfig) (store : SessionStore)
    (db : DB) (userId message : String)
    (h : get_ai_response cfg.backend = none) :
    process_message cfg store db userId message = ⟨.ok none, store, db, [], none⟩ := by
  unfold process_message
  rw [h]

/-- Witness for C7: a raised `APIError` leaves an empty store and database
untouched and returns `None`. -/
theorem ai_failure_mutates_no_store_witness :
    process_message ⟨⟨true, some "hello"⟩, false, false⟩ [] emptyDB "whatsapp:+491701234567" "Hi" =
      ⟨.ok none, [], emptyDB, [], none⟩ :=
  ai_failure_mutates_no_store _ _ _ _ _ rfl

/-- C10 counterexample: on whitespace-only backend content,
`AIClient.get_ai_response` returns the empty string (the content is truthy,
so it is stripped), not `None` as the claim states. -/
theorem c10_whitespace_yields_empty_not_none :
    get_ai_response ⟨false, some " "⟩ = some "" ∧
    (some "" : Option String) ≠ none :=
  ⟨rfl, fun h => Option.noConfusion h⟩

/-- C10 (amended): backend content that is blank after stripping yields `None`
when it is empty or missing, but the empty string when it is whitespace-only;
in every such case `process_message` still treats the turn like a transport
failure — it returns `None` and mutates no store. -/
theorem blank_ai_text_treated_as_failure (cfg : TurnConfig) (store : SessionStore)
    (db : DB) (userId message s : String)
    (hc : cfg.backend.content = some s) (he : cfg.backend.apiError = false)
    (hb : strip s = "") :
    (s = "" → get_ai_response cfg.backend = none) ∧
    (s ≠ "" → get_ai_response cfg.backend = some "") ∧
    process_message cfg store db userId message = ⟨.ok none, store, db, [], none⟩ := by
  have hval : get_ai_response cfg.backend = (if s = "" then none else some "") := by
    simp [get_ai_response, he, hc, hb]
  refine ⟨fun hs => by rw [hval, if_pos hs], fun hs => by rw [hval, if_neg hs], ?_⟩
  unfold process_message
  rw [hval]
  by_cases hs : s = ""
  · rw [if_pos hs]
  · rw [if_neg hs]
    simp

/-- Witness for C10 (amended): whitespace-only content, concretely. -/
theorem blank_ai_text_treated_as_failure_witness :
    process_message ⟨⟨false, some " "⟩, false, false⟩ [] emptyDB "whatsapp:+491701234567" "Hi" =
      ⟨.ok none, [], emptyDB, [], none⟩ :=
  (blank_ai_text_treated_as_failure ⟨⟨false, some " "⟩, false, false⟩ [] emptyDB
    "whatsapp:+491701234567" "Hi" " " rfl rfl rfl).2.2

/-- C1 counterexample: the model text `"{}"` parses as a JSON object with no
reply member and no data member, yet `process_message` runs the Complete
branch for it — classification never inspects the shape. -/
theorem c1_shapeless_object_completes :
    (process_message ⟨⟨false, some "\x7b\x7d"⟩, false, false⟩ [] emptyDB "u" "Hi").branch =
      some Classification.complete ∧
    parseJson "\x7b\x7d" = some (Json.obj []) ∧
    lookupKey [] "reply" = none ∧ lookupKey [] "data" = none :=
  ⟨rfl, rfl, rfl, rfl⟩

/-- C1 (amended): for any text the completion client returns, the turn runs
the Complete branch exactly when the text parses as JSON at all — any JSON
value, its shape unchecked — and the Ongoing branch exactly when parsing
fails. -/
theorem classification_is_parse_success (cfg : TurnConfig) (store : SessionStore)
    (db : DB) (userId message s : String)
    (hai : get_ai_response cfg.backend = some s) (hs : s ≠ "") :
    ((process_message cfg store db userId message).branch = some Classification.complete
        ↔ (parseJson s).isSome) ∧
    ((process_message cfg store db userId message).branch = some Classification.ongoing
        ↔ parseJson s = none) := by
  unfold process_message
  simp only [hai, if_neg hs]
  cases hp : parseJson s with
  | none => simp
  | some fd =>
    cases ho : (handleConversationCompletion cfg db userId
        (workingHistory store userId message) fd).outcome <;> simp [ho]

/-- Witness for C1 (amended): plain conversational text does not parse, so the
turn is Ongoing. -/
theorem classification_is_parse_success_witness :
    (process_message ⟨⟨false, some "Hello friend"⟩, false, false⟩ [] emptyDB "u" "Hi").branch =
      some Classification.ongoing :=
  (classification_is_parse_success ⟨⟨false, some "Hello friend"⟩, false, false⟩ [] emptyDB
    "u" "Hi" "Hello friend" rfl (by decide)).2.mpr rfl

/-- C2: when the turn is Complete (the model text parsed) and the persistence
sequence raises, the exception propagates out of `process_message` unchanged
and the session store is left exactly as it was — the entry for the user is
neither deleted nor modified. -/
theorem persistence_error_propagates_preserving_session (cfg : TurnConfig)
    (store : SessionStore) (db : DB) (userId message s : String) (fd : Json)
    (e : PyErr)
    (hai : get_ai_response cfg.backend = some s) (hs : s ≠ "")
    (hp : parseJson s = some fd)
    (he : (handleConversationCompletion cfg db userId
            (workingHistory store userId message) fd).outcome = .error e) :
    (process_message cfg store db userId message).outcome = .error e ∧
    (process_message cfg store db userId message).store = store := by
  unfold process_message
  simp only [hai, if_neg hs, hp, he]
  exact ⟨trivial, trivial⟩

/-- Witness for C2: a failing first commit propagates `dbError` and leaves the
user's stored two-message session in place. -/
theorem persistence_error_propagates_preserving_session_witness :
    (process_message ⟨⟨false, some "\x7b\x7d"⟩, true, false⟩
        [("session:u", ⟨[⟨"user", "Hi"⟩, ⟨"assistant", "Hello!"⟩], 3600⟩)]
        emptyDB "u" "done").outcome = .error .dbError ∧
    (process_message ⟨⟨false, some "\x7b\x7d"⟩, true, false⟩
        [("session:u", ⟨[⟨"user", "Hi"⟩, ⟨"assistant", "Hello!"⟩], 3600⟩)]
        emptyDB "u" "done").store =
      [("session:u", ⟨[⟨"user", "Hi"⟩, ⟨"assistant", "Hello!"⟩], 3600⟩)] :=
  persistence_error_propagates_preserving_session _ _ _ _ _ _ (Json.obj []) _
    rfl (by decide) rfl rfl

/-- C3 counterexample: with a failing persistence commit on a Complete turn,
the webhook boundary does not answer with the fixed fallback reply — the
exception escapes `handle_twilio_webhook` (there is no handler around the
orchestrator call), so the user gets an HTTP error, not the fallback text. -/
theorem c3_persistence_failure_no_fallback :
    (handle_twilio_webhook ⟨⟨false, some "\x7b\"reply\": \"Done\", \"data\": \x7b\x7d\x7d"⟩, true, false⟩
        [] emptyDB "whatsapp:+15551234567" "done").outcome = .error .dbError ∧
    (handle_twilio_webhook ⟨⟨false, some "\x7b\"reply\": \"Done\", \"data\": \x7b\x7d\x7d"⟩, true, false⟩
        [] emptyDB "whatsapp:+15551234567" "done").outcome ≠ .ok fallbackMessage :=
  ⟨rfl, fun h => Except.noConfusion h⟩

/-- C3 (amended): the boundary substitutes the single fixed fallback reply
exactly when `process_message` returns without raising but yields no usable
text (`None` or the empty string); replies it does send are never blank; but
an exception raised during the turn — persistence failure included —
propagates out of the webhook handler instead of producing the fallback. -/
theorem webhook_reply_policy (cfg : TurnConfig) (store : SessionStore) (db : DB)
    (fromNumber body : String) :
    ((process_message cfg store db fromNumber body).outcome = .ok none →
      (handle_twilio_webhook cfg store db fromNumber body).outcome = .ok fallbackMessage) ∧
    ((process_message cfg store db fromNumber body).outcome = .ok (some "") →
      (handle_twilio_webhook cfg store db fromNumber body).outcome = .ok fallbackMessage) ∧
    (∀ e, (process_message cfg store db fromNumber body).outcome = .error e →
      (handle_twilio_webhook cfg store db fromNumber body).outcome = .error e) ∧
    (∀ reply, (handle_twilio_webhook cfg store db fromNumber body).outcome = .ok reply →
      reply ≠ "") := by
  unfold handle_twilio_webhook
  cases hr : process_message cfg store db fromNumber body with
  | mk o st1 db1 ev br =>
    cases o with
    | error e =>
      exact ⟨fun h => Except.noConfusion h, fun h => Except.noConfusion h,
             fun e' h => by cases h; rfl,
             fun reply h => Except.noConfusion h⟩
    | ok r =>
      cases r with
      | none =>
        refine ⟨fun _ => rfl, fun h => ?_, fun e h => Except.noConfusion h,
                fun reply h => ?_⟩
        · exact Option.noConfusion (Except.ok.inj h)
        · have hre : reply = fallbackMessage := (Except.ok.inj h).symm
          subst hre
          decide
      | some t =>
        by_cases ht : t = ""
        · subst ht
          refine ⟨fun h => Option.noConfusion (Except.ok.inj h), fun _ => by simp,
                  fun e h => Except.noConfusion h, fun reply h => ?_⟩
          simp only [reduceIte] at h
          have hre : reply = fallbackMessage := (Except.ok.inj h).symm
          subst hre
          decide
        · refine ⟨fun h => Option.noConfusion (Except.ok.inj h),
                  fun h => absurd (Option.some.inj (Except.ok.inj h)) ht,
                  fun e h => Except.noConfusion h, fun reply h => ?_⟩
          simp only [if_neg ht] at h
          have hre : reply = t := (Except.ok.inj h).symm
          subst hre
          exact ht

/-- Witness for C3 (amended): with a failed completion call the boundary sends
the fixed fallback reply. -/
theorem webhook_reply_policy_witness :
    (handle_twilio_webhook ⟨⟨true, none⟩, false, false⟩ [] emptyDB
        "whatsapp:+15551234567" "Hi").outcome = .ok fallbackMessage :=
  (webhook_reply_policy ⟨⟨true, none⟩, false, false⟩ [] emptyDB
    "whatsapp:+15551234567" "Hi").1 rfl

/-- C4: on an Ongoing turn (text that does not parse as JSON), the whole
result of `process_message` is: the raw text returned, the working history
with the assistant turn appended written back under the session key with the
fixed one-hour TTL, the database untouched and no durable-write event. -/
theorem ongoing_turn_saves_session_no_durable_write (cfg : TurnConfig)
    (store : SessionStore) (db : DB) (userId message s : String)
    (hai : get_ai_response cfg.backend = some s) (hs : s ≠ "")
    (hp : parseJson s = none) :
    process_message cfg store db userId message =
      ⟨.ok (some s),
       set_session store userId
         (workingHistory store userId message ++ [⟨"assistant", s⟩]),
       db, [], some .ongoing⟩ ∧
    lookupEntry (process_message cfg store db userId message).store (sessionKey userId) =
      some ⟨workingHistory store userId message ++ [⟨"assistant", s⟩], 3600⟩ := by
  have h1 : process_message cfg store db userId message =
      ⟨.ok (some s),
       set_session store userId
         (workingHistory store userId message ++ [⟨"assistant", s⟩]),
       db, [], some .ongoing⟩ := by
    unfold process_message
    simp only [hai, if_neg hs, hp]
  refine ⟨h1, ?_⟩
  rw [h1]
  simp [set_session, lookupEntry, session_ttl]

/-- Witness for C4: Scenario A concretely — plain text reply on a fresh
session. -/
theorem ongoing_turn_saves_session_no_durable_write_witness :
    process_message ⟨⟨false, some "Hello! What is your name?"⟩, false, false⟩ [] emptyDB
        "u" "Hi" =
      ⟨.ok (some "Hello! What is your name?"),
       set_session [] "u"
         (workingHistory [] "u" "Hi" ++ [⟨"assistant", "Hello! What is your name?"⟩]),
       emptyDB, [], some .ongoing⟩ :=
  (ongoing_turn_saves_session_no_durable_write
    ⟨⟨false, some "Hello! What is your name?"⟩, false, false⟩ [] emptyDB "u" "Hi"
    "Hello! What is your name?" rfl (by decide) rfl).1

/-- Reduction of `process_message` on a Complete turn whose persistence
sequence succeeds: the reply is returned, the session entry is deleted, and
the database and events are those of the completion handler. -/
theorem process_message_complete_ok (cfg : TurnConfig) (store : SessionStore)
    (db : DB) (userId message s : String) (fd : Json) (reply : String)
    (hai : get_ai_response cfg.backend = some s) (hs : s ≠ "")
    (hp : parseJson s = some fd)
    (hok : (handleConversationCompletion cfg db userId
            (workingHistory store userId message) fd).outcome = .ok reply) :
    process_message cfg store db userId message =
      ⟨.ok (some reply), delete_session store userId,
       (handleConversationCompletion cfg db userId
         (workingHistory store userId message) fd).db,
       (handleConversationCompletion cfg db userId
         (workingHistory store userId message) fd).events,
       some .complete⟩ := by
  unfold process_message
  simp only [hai, if_neg hs, hp, hok]

/-- C5: when a turn is Complete and the persistence sequence succeeds, the
final reply is returned and the session entry for the user is gone — a
subsequent load returns absent. -/
theorem completion_success_clears_session (cfg : TurnConfig) (store : SessionStore)
    (db : DB) (userId message s : String) (fd : Json) (reply : String)
    (hai : get_ai_response cfg.backend = some s) (hs : s ≠ "")
    (hp : parseJson s = some fd)
    (hok : (handleConversationCompletion cfg db userId
            (workingHistory store userId message) fd).outcome = .ok reply) :
    (process_message cfg store db userId message).outcome = .ok (some reply) ∧
    get_session (process_message cfg store db userId message).store userId = none := by
  rw [process_message_complete_ok cfg store db userId message s fd reply hai hs hp hok]
  exact ⟨rfl, get_session_delete_session_self store userId⟩

/-- Witness for C5: Scenario B concretely — a completion payload with data,
against a stored two-message session, returns the reply and clears the
session. -/
theorem completion_success_clears_session_witness :
    (process_message
        ⟨⟨false, some "\x7b\"reply\": \"Thanks John!\", \"data\": \x7b\"full_name\": \"John\"\x7d\x7d"⟩,
         false, false⟩
        [("session:u", ⟨[⟨"user", "Hi"⟩, ⟨"assistant", "What is your name?"⟩], 3600⟩)]
        emptyDB "u" "John").outcome = .ok (some "Thanks John!") ∧
    get_session
      (process_message
        ⟨⟨false, some "\x7b\"reply\": \"Thanks John!\", \"data\": \x7b\"full_name\": \"John\"\x7d\x7d"⟩,
         false, false⟩
        [("session:u", ⟨[⟨"user", "Hi"⟩, ⟨"assistant", "What is your name?"⟩], 3600⟩)]
        emptyDB "u" "John").store "u" = none :=
  completion_success_clears_session _ _ _ _ _ _
    (Json.obj [("reply", Json.str "Thanks John!"),
               ("data", Json.obj [("full_name", Json.str "John")])])
    "Thanks John!" rfl (by decide) rfl rfl

/-- Helper: `finishReply` on an object payload always returns some reply and
passes its database and events through unchanged. -/
theorem finishReply_obj (kvs : List (String × Json)) (db : DB) (events : List Event) :
    (∃ reply, (finishReply (Json.obj kvs) db events).outcome = .ok reply) ∧
    (finishReply (Json.obj kvs) db events).db = db ∧
    (finishReply (Json.obj kvs) db events).events = events := by
  unfold finishReply
  simp only [pyGet]
  cases hv : (lookupKey kvs "reply").getD Json.null with
  | str sr => by_cases hb : strip sr = "" <;> simp [hb]
  | num n => simp
  | bool b => simp
  | null => simp
  | arr xs => simp
  | obj kvs2 => simp

/-- Helper: `ensureUser` never touches the conversations table. -/
theorem ensureUser_conversations (db : DB) (whatsappId : String) :
    (ensureUser db whatsappId).1.conversations = db.conversations := by
  unfold ensureUser
  cases db.users.find? (fun u => u.whatsappId == whatsappId) <;> rfl

/-- Helper: `ensureUser` never touches the collected-data table. -/
theorem ensureUser_collectedData (db : DB) (whatsappId : String) :
    (ensureUser db whatsappId).1.collectedData = db.collectedData := by
  unfold ensureUser
  cases db.users.find? (fun u => u.whatsappId == whatsappId) <;> rfl

/-- C6: a parsed completion object whose data member is absent or the empty
mapping still completes the turn — a conversation row with status
`"completed"` and the full working history (final JSON turn included) is
committed, no collected-data row is written, and the session is cleared. -/
theorem empty_data_still_completes (cfg : TurnConfig) (store : SessionStore)
    (db : DB) (userId message s : String) (kvs : List (String × Json))
    (hai : get_ai_response cfg.backend = some s) (hs : s ≠ "")
    (hp : parseJson s = some (Json.obj kvs))
    (hdata : (lookupKey kvs "data").getD (Json.obj []) = Json.obj [])
    (hc1 : cfg.commitFails = false) :
    (∃ reply, (process_message cfg store db userId message).outcome = .ok (some reply)) ∧
    (process_message cfg store db userId message).db.conversations =
      db.conversations ++
        [⟨(ensureUser db userId).1.nextId, (ensureUser db userId).2, "completed",
          workingHistory store userId message ++ [⟨"assistant", dumps (Json.obj kvs)⟩]⟩] ∧
    (process_message cfg store db userId message).db.collectedData = db.collectedData ∧
    (process_message cfg store db userId message).events =
      [.ensureUser, .createConversation] ∧
    get_session (process_message cfg store db userId message).store userId = none := by
  have hcc : handleConversationCompletion cfg db userId
      (workingHistory store userId message) (Json.obj kvs) =
      finishReply (Json.obj kvs)
        (addConversation (ensureUser db userId).1 (ensureUser db userId).2 "completed"
          (workingHistory store userId message ++ [⟨"assistant", dumps (Json.obj kvs)⟩])).1
        [.ensureUser, .createConversation] := by
    unfold handleConversationCompletion
    simp [hc1, pyGet, hdata, pyTruthy]
  obtain ⟨⟨reply, hrep⟩, hdb, hev⟩ := finishReply_obj kvs
    (addConversation (ensureUser db userId).1 (ensureUser db userId).2 "completed"
      (workingHistory store userId message ++ [⟨"assistant", dumps (Json.obj kvs)⟩])).1
    [.ensureUser, .createConversation]
  have hok : (handleConversationCompletion cfg db userId
      (workingHistory store userId message) (Json.obj kvs)).outcome = .ok reply := by
    rw [hcc]; exact hrep
  rw [process_message_complete_ok cfg store db userId message s (Json.obj kvs) reply
    hai hs hp hok]
  refine ⟨⟨reply, rfl⟩, ?_, ?_, ?_, get_session_delete_session_self store userId⟩
  · show (handleConversationCompletion cfg db userId
      (workingHistory store userId message) (Json.obj kvs)).db.conversations = _
    rw [hcc, hdb]
    simp [addConversation, ensureUser_conversations]
  · show (handleConversationCompletion cfg db userId
      (workingHistory store userId message) (Json.obj kvs)).db.collectedData = _
    rw [hcc, hdb]
    simp [addConversation, ensureUser_collectedData]
  · show (handleConversationCompletion cfg db userId
      (workingHistory store userId message) (Json.obj kvs)).events = _
    rw [hcc, hev]

/-- Witness for C6: Scenario D concretely — an empty data mapping writes no
collected-data row yet the session for the user is cleared. -/
theorem empty_data_still_completes_witness :
    (process_message ⟨⟨false, some "\x7b\"reply\": \"Done\", \"data\": \x7b\x7d\x7d"⟩, false, false⟩
        [("session:u", ⟨[⟨"user", "Hi"⟩, ⟨"assistant", "Name?"⟩], 3600⟩)]
        emptyDB "u" "done").db.collectedData = [] ∧
    get_session
      (process_message ⟨⟨false, some "\x7b\"reply\": \"Done\", \"data\": \x7b\x7d\x7d"⟩, false, false⟩
        [("session:u", ⟨[⟨"user", "Hi"⟩, ⟨"assistant", "Name?"⟩], 3600⟩)]
        emptyDB "u" "done").store "u" = none :=
  ⟨(empty_data_still_completes
      ⟨⟨false, some "\x7b\"reply\": \"Done\", \"data\": \x7b\x7d\x7d"⟩, false, false⟩
      [("session:u", ⟨[⟨"user", "Hi"⟩, ⟨"assistant", "Name?"⟩], 3600⟩)] emptyDB "u" "done"
      "\x7b\"reply\": \"Done\", \"data\": \x7b\x7d\x7d"
      [("reply", Json.str "Done"), ("data", Json.obj [])]
      rfl (by decide) rfl rfl rfl).2.2.1,
   (empty_data_still_completes
      ⟨⟨false, some "\x7b\"reply\": \"Done\", \"data\": \x7b\x7d\x7d"⟩, false, false⟩
      [("session:u", ⟨[⟨"user", "Hi"⟩, ⟨"assistant", "Name?"⟩], 3600⟩)] emptyDB "u" "done"
      "\x7b\"reply\": \"Done\", \"data\": \x7b\x7d\x7d"
      [("reply", Json.str "Done"), ("data", Json.obj [])]
      rfl (by decide) rfl rfl rfl).2.2.2.2⟩

/-- Helper: `finishReply` passes its events through unchanged. -/
theorem finishReply_events (fd : Json) (db : DB) (events : List Event) :
    (finishReply fd db events).events = events := by
  unfold finishReply
  cases hg : pyGet fd "reply" Json.null with
  | error e => rfl
  | ok rj =>
    cases rj with
    | str sr => by_cases hb : strip sr = "" <;> simp [hb]
    | num n => rfl
    | bool b => rfl
    | null => rfl
    | arr xs => rfl
    | obj kvs => rfl

/-- Helper: the completion handler only ever produces the empty event trace,
the user-then-conversation trace, or the full user-conversation-data trace. -/
theorem handleConversationCompletion_events (cfg : TurnConfig) (db : DB)
    (userId : String) (history : List Msg) (fd : Json) :
    (handleConversationCompletion cfg db userId history fd).events = [] ∨
    (handleConversationCompletion cfg db userId history fd).events =
      [.ensureUser, .createConversation] ∨
    (handleConversationCompletion cfg db userId history fd).events =
      [.ensureUser, .createConversation, .createCollectedData] := by
  unfold handleConversationCompletion
  cases hcf : cfg.commitFails with
  | true => simp
  | false =>
    simp only [Bool.false_eq_true, if_false]
    cases hg : pyGet fd "data" (Json.obj []) with
    | error e => simp
    | ok dataToSave =>
      by_cases h2 : pyTruthy dataToSave = true
      · by_cases h3 : cfg.dataCommitFails = true
        · simp [h2, h3]
        · simp only [h2, if_true, h3, if_false, Bool.not_eq_true] at *
          simp [h2, h3, finishReply_events]
      · simp [h2, finishReply_events]

/-- C8: in every execution of `process_message`, the durable-write trace is a
prefix of ensure-user, then create-conversation, then create-collected-data:
the owning user always exists before the conversation row is created, and the
conversation row before any collected-data row — never the reverse order. -/
theorem persistence_event_order (cfg : TurnConfig) (store : SessionStore) (db : DB)
    (userId message : String) :
    (process_message cfg store db userId message).events = [] ∨
    (process_message cfg store db userId message).events =
      [.ensureUser, .createConversation] ∨
    (process_message cfg store db userId message).events =
      [.ensureUser, .createConversation, .createCollectedData] := by
  unfold process_message
  cases ha : get_ai_response cfg.backend with
  | none => left; rfl
  | some s =>
    by_cases hs : s = ""
    · simp only [if_pos hs]
      left; trivial
    · simp only [if_neg hs]
      cases hp : parseJson s with
      | none => left; rfl
      | some fd =>
        cases ho : (handleConversationCompletion cfg db userId
            (workingHistory store userId message) fd).outcome with
        | error e =>
          simp only [ho]
          exact handleConversationCompletion_events cfg db userId
            (workingHistory store userId message) fd
        | ok reply =>
          simp only [ho]
          exact handleConversationCompletion_events cfg db userId
            (workingHistory store userId message) fd

/-- Helper: appending an assistant message yields a history that ends with
one. -/
theorem endsWithAssistant_append (h : List Msg) (c : String) :
    endsWithAssistant (h ++ [⟨"assistant", c⟩]) := by
  intro m hm
  rw [List.reverse_append] at hm
  simp only [List.reverse_singleton, List.singleton_append, List.head?_cons,
    Option.some.injEq] at hm
  rw [← hm]

/-- Helper: writing a history that ends with an assistant message preserves
the store invariant. -/
theorem storeInv_set_session {store : SessionStore} (hinv : StoreInv store)
    (userId : String) {h : List Msg} (hh : endsWithAssistant h) :
    StoreInv (set_session store userId h) := by
  intro k e hk
  unfold set_session at hk
  simp only [lookupEntry] at hk
  by_cases hkey : sessionKey userId = k
  · rw [if_pos hkey] at hk
    injection hk with hk2
    rw [← hk2]
    exact hh
  · rw [if_neg hkey] at hk
    exact hinv k e (lookupEntry_eraseEntry_some hk)

/-- Helper: deletion preserves the store invariant. -/
theorem storeInv_delete_session {store : SessionStore} (hinv : StoreInv store)
    (userId : String) : StoreInv (delete_session store userId) :=
  fun k e hk => hinv k e (lookupEntry_eraseEntry_some hk)

/-- Helper: one full turn preserves the store invariant, whatever the backend
and database do. -/
theorem storeInv_process_message (cfg : TurnConfig) {store : SessionStore} (db : DB)
    (userId message : String) (hinv : StoreInv store) :
    StoreInv (process_message cfg store db userId message).store := by
  unfold process_message
  cases ha : get_ai_response cfg.backend with
  | none => exact hinv
  | some s =>
    by_cases hs : s = ""
    · simp only [if_pos hs]
      exact hinv
    · simp only [if_neg hs]
      cases hp : parseJson s with
      | none => exact storeInv_set_session hinv userId (endsWithAssistant_append _ s)
      | some fd =>
        cases ho : (handleConversationCompletion cfg db userId
            (workingHistory store userId message) fd).outcome with
        | error e =>
          simp only [ho]
          exact hinv
        | ok reply =>
          simp only [ho]
          exact storeInv_delete_session hinv userId

/-- C9: every session store reachable from the fresh store holds only
histories that are empty or end with an assistant message, so the working
history handed to the completion client on the next turn carries exactly one
trailing unresponded user message. -/
theorem one_trailing_user_at_generation (store : SessionStore) (hr : Reachable store) :
    StoreInv store ∧
    ∀ userId message, trailingUserCount (workingHistory store userId message) = 1 := by
  have hinv : StoreInv store := by
    induction hr with
    | init => exact fun k e hk => Option.noConfusion hk
    | step cfg db uid msg hr0 ih => exact storeInv_process_message cfg db uid msg ih
  refine ⟨hinv, fun userId message => ?_⟩
  have hA : endsWithAssistant ((get_session store userId).getD []) := by
    cases hg : get_session store userId with
    | none => exact fun m hm => Option.noConfusion hm
    | some hl =>
      unfold get_session at hg
      cases hk : lookupEntry store (sessionKey userId) with
      | none => rw [hk] at hg; exact Option.noConfusion hg
      | some e =>
        rw [hk] at hg
        injection hg with hg2
        simpa [hg2] using hinv (sessionKey userId) e hk
  unfold workingHistory trailingUserCount
  rw [List.reverse_append]
  simp only [List.reverse_singleton, List.singleton_append]
  rw [List.takeWhile_cons_of_pos (by rfl)]
  cases hrev : ((get_session store userId).getD []).reverse with
  | nil => rfl
  | cons m t =>
    have hm : m.role = "assistant" := hA m (by rw [hrev]; rfl)
    rw [List.takeWhile_cons_of_neg (by simp [hm])]
    rfl

/-- Witness for C9: the initial empty store, with one inbound message. -/
theorem one_trailing_user_at_generation_witness :
    trailingUserCount (workingHistory [] "u" "Hi") = 1 :=
  (one_trailing_user_at_generation [] Reachable.init).2 "u" "Hi"

end Watssabi
